import Mathlib

/-!
# Verification of the AutoRA user-cookiecutter post-generation hook

A shallow embedding of `hooks/post_gen_project.py`.  The hook is a linear,
single-threaded sequence of interactive prompts, file moves/removals,
subprocess invocations and appends to a requirements file.  We model:

* the filesystem as an association list of paths to file data plus a list of
  directories (`FS`);
* user interaction as explicit inputs (the answers the prompt library would
  return);
* subprocess launches, prompts, moves, removals and writes as an explicit
  effect trace (`Effect`);
* Python exceptions (`FileNotFoundError`, `KeyError`, `TypeError`,
  `CalledProcessError`, …) as `Except Err`.

String splitting (`str.split`, used for line structure and for deriving
dependency-group names) is modelled structurally over the character list of a
`String`, so that every definition evaluates by kernel reduction.
-/

namespace Autora

/-! ## Python string helpers -/

/-- `str.split(sep)` for a one-character separator, on character lists.
Always returns a non-empty list; `splitOnChar sep [] = [[]]`, matching
Python's `"".split(sep) == [""]`. -/
def splitOnChar (sep : Char) : List Char → List (List Char)
  | [] => [[]]
  | c :: rest =>
    if c = sep then [] :: splitOnChar sep rest
    else
      match splitOnChar sep rest with
      | [] => [[c]]
      | l :: ls => (c :: l) :: ls

/-- The lines of a file's text content: `str.split("\n")`. -/
def fileLines (s : String) : List String :=
  (splitOnChar '\n' s.data).map String.mk

/-- `str.replace(pat, rep)` on character lists, with fuel (the input length
suffices since a non-empty pattern consumes at least one character per step). -/
def replaceSub (pat rep : List Char) : Nat → List Char → List Char
  | 0, s => s
  | _ + 1, [] => []
  | fuel + 1, c :: rest =>
    if pat.isPrefixOf (c :: rest) && !pat.isEmpty then
      rep ++ replaceSub pat rep fuel ((c :: rest).drop pat.length)
    else
      c :: replaceSub pat rep fuel rest

/-- `s.replace(pat, rep)`. -/
def pyReplace (s pat rep : String) : String :=
  String.mk (replaceSub pat.data rep.data s.data.length s.data)

/-! ## Errors, filesystem, effects -/

/-- The Python exceptions the hook can raise (all unhandled except
`CalledProcessError` inside the firebase probe). -/
inductive Err
  | fileNotFound (p : String)
  | fileExists (p : String)
  | keyError (k : String)
  | indexError
  | typeError
  | jsonError
  | launchError
  deriving DecidableEq, Repr

/-- Contents of a file: plain text, or the parsed `package.json` manifest
(modelled by its `dependencies` mapping, the only part the hook touches). -/
inductive FileData
  | text (s : String)
  | jsonPkg (dependencies : List (String × String))
  deriving DecidableEq, Repr

/-- A filesystem: files (path ↦ data) and a set of directories, both as
lists; paths are `cwd`-relative as in the hook. -/
structure FS where
  files : List (String × FileData)
  dirs : List String
  deriving DecidableEq, Repr

def FS.readFile (fs : FS) (p : String) : Option FileData :=
  (fs.files.find? (fun e => e.1 == p)).map (·.2)

def FS.writeFile (fs : FS) (p : String) (d : FileData) : FS :=
  ⟨(p, d) :: fs.files.filter (fun e => e.1 != p), fs.dirs⟩

def FS.removeFile (fs : FS) (p : String) : FS :=
  ⟨fs.files.filter (fun e => e.1 != p), fs.dirs⟩

/-- `open(p, 'a'); f.write(t)`: append to the text content, creating the file
when absent (the non-text case is never exercised by the hook). -/
def FS.appendText (fs : FS) (p : String) (t : String) : FS :=
  match fs.readFile p with
  | some (.text s) => fs.writeFile p (.text (s ++ t))
  | _ => fs.writeFile p (.text t)

/-- `shutil.move(src, dst)`: `FileNotFoundError` when the source is absent. -/
def FS.move (fs : FS) (src dst : String) : Except Err FS :=
  match fs.readFile src with
  | none => .error (.fileNotFound src)
  | some d => .ok ((fs.removeFile src).writeFile dst d)

/-- Whether `pre` is a string prefix of `s` (structurally, over characters). -/
def strStartsWith (pre s : String) : Bool :=
  pre.data.isPrefixOf s.data

/-- Remove a directory and everything under it (total helper). -/
def FS.removeTree (fs : FS) (d : String) : FS :=
  ⟨fs.files.filter (fun e => !(strStartsWith (d ++ "/") e.1)),
   fs.dirs.filter (fun x => x != d && !(strStartsWith (d ++ "/") x))⟩

/-- `shutil.rmtree(d)`: `FileNotFoundError` when the directory is absent. -/
def FS.rmtree (fs : FS) (d : String) : Except Err FS :=
  if fs.dirs.contains d then .ok (fs.removeTree d) else .error (.fileNotFound d)

/-- `os.mkdir(d)`: `FileExistsError` when the directory already exists. -/
def FS.mkdir (fs : FS) (d : String) : Except Err FS :=
  if fs.dirs.contains d then .error (.fileExists d)
  else .ok ⟨fs.files, d :: fs.dirs⟩

/-- Observable side effects of a run, in order. -/
inductive Effect
  | prompt (name : String)
  | subprocessCall (cmd : List String)
  | moveFile (src dst : String)
  | rmtreeDir (d : String)
  | mkdirDir (d : String)
  | writeAppend (p t : String)
  | writeJson (p : String)
  deriving DecidableEq, Repr

def isPromptEff : Effect → Bool
  | .prompt _ => true
  | _ => false

/-- Number of interactive prompts in an effect trace. -/
def countPrompts (effs : List Effect) : Nat :=
  effs.countP (fun e => isPromptEff e)

/-- The directories removed (`shutil.rmtree`) in an effect trace, in order. -/
def removedDirs (effs : List Effect) : List String :=
  effs.filterMap (fun e => match e with | .rmtreeDir d => some d | _ => none)

/-! ## `clean_up` -/

/-- `clean_up()`: if `temp` exists, shell out to `deactivate` and remove the
tree; otherwise do nothing. -/
def clean_up (fs : FS) : FS × List Effect :=
  if fs.dirs.contains "temp" then
    (fs.removeTree "temp",
     [Effect.subprocessCall ["deactivate"], Effect.rmtreeDir "temp"])
  else (fs, [])

/-! ## `check_if_firebase_tools_installed` -/

/-- Outcome of launching an external command: it ran and exited with a code,
or it could not be launched at all (e.g. the executable is absent, which in
Python raises `FileNotFoundError`, not `CalledProcessError`). -/
inductive ExecResult
  | exited (code : Nat)
  | launchFailure
  deriving DecidableEq, Repr

/-- `check_if_firebase_tools_installed()`: `subprocess.check_output` raises
`CalledProcessError` on a non-zero exit (caught, `False`) but a launch
failure raises an `OSError` that the `except` clause does not catch. -/
def check_if_firebase_tools_installed (r : ExecResult) : Except Err Bool :=
  match r with
  | .exited 0 => .ok true
  | .exited (_ + 1) => .ok false
  | .launchFailure => .error .launchError

/-! ## `create_autora_hub_requirements` -/

/-- The parts of the remote `pyproject.toml` the hook reads: the `all`
optional-dependency group and the full `optional-dependencies` table. -/
structure PyProjectDoc where
  allDeps : List String
  optionalDeps : List (String × List String)

/-- TOML table lookup `doc["project"]["optional-dependencies"][k]`. -/
def lookupGroup (doc : PyProjectDoc) (k : String) : Option (List String) :=
  (doc.optionalDeps.find? (fun e => e.1 == k)).map (·.2)

/-- `s.split("[")[1].split("]")[0]`: `IndexError` when `s` has no `[`. -/
def extractBracket (s : String) : Except Err String :=
  match (splitOnChar '[' s.data).get? 1 with
  | none => .error .indexError
  | some t => .ok (String.mk ((splitOnChar ']' t).headD []))

/-- `all_deps_clean = [s.split("[")[1].split("]")[0] for s in all_deps]`. -/
def allDepsClean (doc : PyProjectDoc) : Except Err (List String) :=
  doc.allDeps.mapM extractBracket

/-- The prompt loop of `create_autora_hub_requirements`: for each group name
look up its package list (`KeyError` when absent), and when it is non-empty
issue a checkbox prompt and take the user's selection for it; `responses k` is
the selection the user makes at the `k`-th prompt that is actually shown. -/
def hubLoop (doc : PyProjectDoc) (responses : Nat → List String) :
    List String → Nat → Except Err (List Effect × List String)
  | [], _ => .ok ([], [])
  | g :: gs, k =>
    match lookupGroup doc g with
    | none => .error (.keyError g)
    | some lst =>
      if lst.isEmpty then hubLoop doc responses gs k
      else
        match hubLoop doc responses gs (k + 1) with
        | .error e => .error e
        | .ok (effs, deps) =>
          .ok (Effect.prompt (pyReplace g "all-" "") :: effs, responses k ++ deps)

/-- Derive the group names from the `all` section and run the prompt loop. -/
def runHubLoop (doc : PyProjectDoc) (responses : Nat → List String) :
    Except Err (List Effect × List String) := do
  let names ← allDepsClean doc
  hubLoop doc responses names 0

def prolificPkg : String := "autora[experiment-runner-firebase-prolific]"

/-- One `f.write(f'\n{a}')` per selected dependency, in order. -/
def appendLines (s : String) (deps : List String) : String :=
  deps.foldl (fun acc a => acc ++ "\n" ++ a) s

/-- The requirements-file append loop of `create_autora_hub_requirements`. -/
def FS.appendDeps (fs : FS) (p : String) (deps : List String) : FS :=
  match fs.readFile p with
  | some (.text s) => fs.writeFile p (.text (appendLines s deps))
  | _ => fs.writeFile p (.text (appendLines "" deps))

/-- `create_autora_hub_requirements(source_branch, requirements_file)`:
fetch and parse the manifest (`doc`), run the prompt loop, append every
selection to the requirements file, and report whether the firebase-prolific
runner package was among the selections. -/
def create_autora_hub_requirements (doc : PyProjectDoc)
    (responses : Nat → List String) (requirements_file : String) (fs : FS) :
    Except Err (FS × List Effect × Bool) := do
  let (effs, additional_deps) ← runHubLoop doc responses
  .ok (fs.appendDeps requirements_file additional_deps,
       effs ++ additional_deps.map (fun a =>
         Effect.writeAppend requirements_file ("\n" ++ a)),
       additional_deps.contains prolificPkg)

/-! ## `setup_basic` -/

/-- `setup_basic(requirements_file)`: probe for firebase-tools (installing
them when absent), scaffold the React app, append `autora`, move the fixed
`basic` main/workflow/README set, and remove the three staging directories. -/
def setup_basic (requirements_file : String) (probe : ExecResult) (fs : FS) :
    Except Err (FS × List Effect) := do
  let installed ← check_if_firebase_tools_installed probe
  let effs := [Effect.subprocessCall ["firebase", "--version"]]
  let effs := if !installed then
      effs ++ [Effect.subprocessCall ["npm", "install", "-g", "firebase-tools"]]
    else effs
  let effs := effs ++ [Effect.subprocessCall
      ["npx", "create-react-app", "testing_zone", "--template", "autora-firebase"]]
  let fs := fs.appendText requirements_file "\nautora"
  let effs := effs ++ [Effect.writeAppend requirements_file "\nautora"]
  let fs ← fs.move "example_mains/basic.js" "testing_zone/src/design/main.js"
  let fs ← fs.move "example_workflows/basic.py" "researcher_hub/autora_workflow.py"
  let fs ← fs.move "readmes/README_AUTORA.md" "researcher_hub/README.md"
  let fs ← fs.move "readmes/README_FIREBASE_basic.md" "testing_zone/README.md"
  let effs := effs ++
    [Effect.moveFile "example_mains/basic.js" "testing_zone/src/design/main.js",
     Effect.moveFile "example_workflows/basic.py" "researcher_hub/autora_workflow.py",
     Effect.moveFile "readmes/README_AUTORA.md" "researcher_hub/README.md",
     Effect.moveFile "readmes/README_FIREBASE_basic.md" "testing_zone/README.md"]
  let fs ← fs.rmtree "example_workflows"
  let fs ← fs.rmtree "example_mains"
  let fs ← fs.rmtree "readmes"
  .ok (fs, effs ++ [Effect.rmtreeDir "example_workflows",
                    Effect.rmtreeDir "example_mains",
                    Effect.rmtreeDir "readmes"])

/-! ## `create_autora_example_project` -/

/-- The answers the two prompts of the example-project selector return. -/
structure AdvancedAnswers where
  firebase : String
  projectType : String
  deriving DecidableEq, Repr

/-- `package_json['dependencies'][k] = v`: Python dict assignment on the
modelled mapping (update in place, or append a new key). -/
def setKey (l : List (String × String)) (k v : String) : List (String × String) :=
  if l.any (fun e => e.1 == k) then
    l.map (fun e => if e.1 == k then (k, v) else e)
  else l ++ [(k, v)]

/-- `create_autora_example_project(requirements_file, npm_package_file=None)`:
ask for a front-end; on "no" return immediately.  Otherwise scaffold the React
app, ask for a project type, map it to a file token with per-type side
effects (requirements appends; for Double Sweet the `package.json` rewrite,
which on `npm_package_file=None` is `open(None)`, a `TypeError`; for Bandit a
CSS directory), move the main/workflow/README set, and remove the four staging
directories. -/
def create_autora_example_project (ans : AdvancedAnswers)
    (requirements_file : String) (npm_package_file : Option String) (fs : FS) :
    Except Err (FS × List Effect) := do
  let effs := [Effect.prompt "firebase"]
  if ans.firebase == "no" then
    return (fs, effs)
  let effs := effs ++ [Effect.subprocessCall
      ["npx", "create-react-app", "testing_zone", "--template", "autora-firebase"]]
  let effs := effs ++ [Effect.prompt "project_type"]
  let example_file := "basic"
  let example_file := if ans.projectType == "JsPsych - Stroop" then "js_psych_stroop"
    else example_file
  let example_file := if ans.projectType == "JsPsych - RDK" then "js_psych_rdk"
    else example_file
  let example_file := if ans.projectType == "SuperExperiment" then "super_experiment"
    else example_file
  let (example_file, fs, effs) :=
    if ans.projectType == "SweetBean" then
      ("sweet_bean", fs.appendText requirements_file "\nsweetbean",
       effs ++ [Effect.writeAppend requirements_file "\nsweetbean"])
    else (example_file, fs, effs)
  let (example_file, fs, effs) ←
    if ans.projectType == "Double Sweet" then do
      let fs := (fs.appendText requirements_file "\nsweetbean").appendText
        requirements_file "\nsweetpea"
      let effs := effs ++ [Effect.writeAppend requirements_file "\nsweetbean",
                           Effect.writeAppend requirements_file "\nsweetpea"]
      match npm_package_file with
      | none => Except.error Err.typeError
      | some p =>
        match fs.readFile p with
        | none => Except.error (Err.fileNotFound p)
        | some (.text _) => Except.error Err.jsonError
        | some (.jsonPkg deps) =>
          let deps := setKey deps "@jspsych-contrib/plugin-rok" "^1.1.1"
          let deps := setKey deps "jspsych" "^7.3.1"
          let deps := setKey deps "sweetbean" "^0.0.7"
          Except.ok ("double_sweet", fs.writeFile p (.jsonPkg deps),
                     effs ++ [Effect.writeJson p])
    else Except.ok (example_file, fs, effs)
  let example_file := if ans.projectType == "Mathematical Model Discovery" then
      "mathematical_model_discovery"
    else example_file
  let (example_file, fs, effs) ←
    if ans.projectType == "JsPsych - Bandit" then do
      let fs ← fs.mkdir "testing_zone/src/css"
      let fs ← fs.move "example_css/js_psych_bandit.css"
        "testing_zone/src/css/slot-machine.css"
      let fs := fs.appendText requirements_file "\nautora-theorist-rnn-sindy-rl"
      Except.ok ("js_psych_bandit", fs,
        effs ++ [Effect.mkdirDir "testing_zone/src/css",
                 Effect.moveFile "example_css/js_psych_bandit.css"
                   "testing_zone/src/css/slot-machine.css",
                 Effect.writeAppend requirements_file "\nautora-theorist-rnn-sindy-rl"])
    else Except.ok (example_file, fs, effs)
  let fs ← fs.move ("example_mains/" ++ example_file ++ ".js")
    "testing_zone/src/design/main.js"
  let fs ← fs.move ("example_workflows/" ++ example_file ++ ".py")
    "researcher_hub/autora_workflow.py"
  let fs ← fs.move "readmes/README_AUTORA.md" "researcher_hub/README.md"
  let fs ← fs.move ("readmes/README_FIREBASE_" ++ example_file ++ ".md")
    "testing_zone/README.md"
  let effs := effs ++
    [Effect.moveFile ("example_mains/" ++ example_file ++ ".js")
       "testing_zone/src/design/main.js",
     Effect.moveFile ("example_workflows/" ++ example_file ++ ".py")
       "researcher_hub/autora_workflow.py",
     Effect.moveFile "readmes/README_AUTORA.md" "researcher_hub/README.md",
     Effect.moveFile ("readmes/README_FIREBASE_" ++ example_file ++ ".md")
       "testing_zone/README.md"]
  let fs ← fs.rmtree "example_workflows"
  let fs ← fs.rmtree "example_mains"
  let fs ← fs.rmtree "example_css"
  let fs ← fs.rmtree "readmes"
  .ok (fs, effs ++ [Effect.rmtreeDir "example_workflows",
                    Effect.rmtreeDir "example_mains",
                    Effect.rmtreeDir "example_css",
                    Effect.rmtreeDir "readmes"])

/-! ## `main` -/

/-- The stages of the hook's (informal) linear state machine. -/
inductive Stage
  | modeSelector
  | dependencyMenuBuilder
  | exampleProjectSelector
  | basicSetup
  | cleanup
  deriving DecidableEq, Repr

/-- All external inputs a run of `main()` consumes: the answer to the
basic-or-advanced question, the fetched manifest, the checkbox selections, the
example-project answers, and the outcome of the firebase-tools probe. -/
structure RunInput where
  advanced : Bool
  doc : PyProjectDoc
  responses : Nat → List String
  exAnswers : AdvancedAnswers
  firebaseProbe : ExecResult

def requirementsFilePath : String := "researcher_hub/requirements.txt"

def npmPackageFilePath : String := "testing_zone/package.json"

/-- `main()`: advanced mode runs the dependency menu builder and, only when
its boolean result (prolific runner selected) is true, the example project
selector; basic mode runs `setup_basic`; both end with `clean_up`.  As in the
source, `main` computes the `package.json` path but does not pass it to
`create_autora_example_project`, which therefore receives its default `None`.
The returned `List Stage` records which stages ran, in order. -/
def main (inp : RunInput) (fs : FS) : Except Err (FS × List Effect × List Stage) := do
  let requirements_file := requirementsFilePath
  let _npm_package_file := npmPackageFilePath
  let effs := [Effect.prompt "advanced"]
  if inp.advanced then
    let (fs, effs1, has_prolific) ←
      create_autora_hub_requirements inp.doc inp.responses requirements_file fs
    if has_prolific then
      let (fs, effs2) ←
        create_autora_example_project inp.exAnswers requirements_file none fs
      let (fs, effs3) := clean_up fs
      .ok (fs, effs ++ effs1 ++ effs2 ++ effs3,
           [Stage.modeSelector, Stage.dependencyMenuBuilder,
            Stage.exampleProjectSelector, Stage.cleanup])
    else
      let (fs, effs3) := clean_up fs
      .ok (fs, effs ++ effs1 ++ effs3,
           [Stage.modeSelector, Stage.dependencyMenuBuilder, Stage.cleanup])
  else
    let (fs, effs1) ← setup_basic requirements_file inp.firebaseProbe fs
    let (fs, effs3) := clean_up fs
    .ok (fs, effs ++ effs1 ++ effs3,
         [Stage.modeSelector, Stage.basicSetup, Stage.cleanup])

/-! ## Result projections -/

/-- Whether a selector run succeeded. -/
def selOk : Except Err (FS × List Effect) → Bool
  | .ok _ => true
  | .error _ => false

/-- The effect trace of a successful selector run (empty on error). -/
def selEffects : Except Err (FS × List Effect) → List Effect
  | .ok r => r.2
  | .error _ => []

/-- Whether a run of `main` succeeded. -/
def runOk : Except Err (FS × List Effect × List Stage) → Bool
  | .ok _ => true
  | .error _ => false

/-- The final filesystem of a successful run of `main`. -/
def runFS : Except Err (FS × List Effect × List Stage) → FS
  | .ok r => r.1
  | .error _ => ⟨[], []⟩

/-- The stage trace of a successful run of `main` (empty on error). -/
def runStages : Except Err (FS × List Effect × List Stage) → List Stage
  | .ok r => r.2.2
  | .error _ => []

/-! ## Concrete fixtures

A small dependency manifest in the shape of the real `autora` `pyproject.toml`
(the `all` group lists the `all-…` sub-groups), and a filesystem holding every
asset the template ships: the staging directories `example_mains`,
`example_workflows`, `example_css` and `readmes` with one entry per example
token, the `researcher_hub` requirements file, and the scaffolded
`testing_zone` with its `package.json`. -/

def sampleDoc : PyProjectDoc :=
  ⟨["autora[all-theorists]", "autora[all-experimentalists]", "autora[all-docs]"],
   [("all-theorists", ["autora[theorist-bms]", "autora[theorist-bsr]"]),
    ("all-experimentalists",
      ["autora[experimentalist-inequality]", "autora[experiment-runner-firebase-prolific]"]),
    ("all-docs", [])]⟩

def templateFiles : List (String × FileData) :=
  [("researcher_hub/requirements.txt", .text "autora-core"),
   ("testing_zone/package.json", .jsonPkg [("react", "^18.0.0")]),
   ("example_mains/basic.js", .text "main basic"),
   ("example_mains/js_psych_stroop.js", .text "main stroop"),
   ("example_mains/js_psych_rdk.js", .text "main rdk"),
   ("example_mains/js_psych_bandit.js", .text "main bandit"),
   ("example_mains/super_experiment.js", .text "main super"),
   ("example_mains/sweet_bean.js", .text "main sweetbean"),
   ("example_mains/double_sweet.js", .text "main doublesweet"),
   ("example_mains/mathematical_model_discovery.js", .text "main mmd"),
   ("example_workflows/basic.py", .text "workflow basic"),
   ("example_workflows/js_psych_stroop.py", .text "workflow stroop"),
   ("example_workflows/js_psych_rdk.py", .text "workflow rdk"),
   ("example_workflows/js_psych_bandit.py", .text "workflow bandit"),
   ("example_workflows/super_experiment.py", .text "workflow super"),
   ("example_workflows/sweet_bean.py", .text "workflow sweetbean"),
   ("example_workflows/double_sweet.py", .text "workflow doublesweet"),
   ("example_workflows/mathematical_model_discovery.py", .text "workflow mmd"),
   ("example_css/js_psych_bandit.css", .text "slot machine css"),
   ("readmes/README_AUTORA.md", .text "readme autora"),
   ("readmes/README_FIREBASE_basic.md", .text "readme fb basic"),
   ("readmes/README_FIREBASE_js_psych_stroop.md", .text "readme fb stroop"),
   ("readmes/README_FIREBASE_js_psych_rdk.md", .text "readme fb rdk"),
   ("readmes/README_FIREBASE_js_psych_bandit.md", .text "readme fb bandit"),
   ("readmes/README_FIREBASE_super_experiment.md", .text "readme fb super"),
   ("readmes/README_FIREBASE_sweet_bean.md", .text "readme fb sweetbean"),
   ("readmes/README_FIREBASE_double_sweet.md", .text "readme fb doublesweet"),
   ("readmes/README_FIREBASE_mathematical_model_discovery.md", .text "readme fb mmd")]

def templateFS : FS :=
  ⟨templateFiles,
   ["researcher_hub", "testing_zone", "testing_zone/src",
    "example_mains", "example_workflows", "example_css", "readmes", "temp"]⟩

/-- The fixed choice list of the project-type prompt. -/
def projectTypeChoices : List String :=
  ["Blank", "Double Sweet", "JsPsych - Stroop", "JsPsych - RDK",
   "JsPsych - Bandit", "SuperExperiment", "SweetBean",
   "Mathematical Model Discovery"]

/-- The label-to-file-basename mapping of the selector's `if` chain. -/
def exampleFileFor (projectType : String) : String :=
  if projectType == "JsPsych - Stroop" then "js_psych_stroop"
  else if projectType == "JsPsych - RDK" then "js_psych_rdk"
  else if projectType == "SuperExperiment" then "super_experiment"
  else if projectType == "SweetBean" then "sweet_bean"
  else if projectType == "Double Sweet" then "double_sweet"
  else if projectType == "Mathematical Model Discovery" then "mathematical_model_discovery"
  else if projectType == "JsPsych - Bandit" then "js_psych_bandit"
  else "basic"

/-- An advanced run in which the user selects nothing at every checkbox. -/
def noProlificInput : RunInput :=
  ⟨true, sampleDoc, fun _ => [], ⟨"yes", "Blank"⟩, .exited 0⟩

/-- An advanced run in which the experimentalists checkbox (the second prompt)
selects the firebase-prolific runner package. -/
def prolificInput : RunInput :=
  ⟨true, sampleDoc, fun k => if k = 1 then [prolificPkg] else [],
   ⟨"yes", "Blank"⟩, .exited 0⟩

/-- An advanced run selecting the prolific runner and then `Double Sweet`. -/
def doubleSweetInput : RunInput :=
  ⟨true, sampleDoc, fun k => if k = 1 then [prolificPkg] else [],
   ⟨"yes", "Double Sweet"⟩, .exited 0⟩

/-- A basic-mode run (`basic or advanced` answered "no"); `c` is the exit code
of the firebase-tools version probe. -/
def basicInput (c : Nat) : RunInput :=
  ⟨false, sampleDoc, fun _ => [], ⟨"no", "Blank"⟩, .exited c⟩

/-- The example-project selector run on the full template filesystem with the
`Blank` project type (and the `package.json` path actually supplied). -/
def blankSelRun : Except Err (FS × List Effect) :=
  create_autora_example_project ⟨"yes", "Blank"⟩ requirementsFilePath
    (some npmPackageFilePath) templateFS

/-- Checkbox selections with a duplicate across the two non-empty groups. -/
def dupResponses : Nat → List String :=
  fun k => if k = 0 then ["autora[theorist-bms]", "dup"] else ["dup"]

/-! ## Helper lemmas on line splitting -/

theorem splitOnChar_ne_nil (sep : Char) (l : List Char) : splitOnChar sep l ≠ [] := by
  induction l with
  | nil => simp [splitOnChar]
  | cons c rest ih =>
    simp only [splitOnChar]
    by_cases h : c = sep
    · simp [h]
    · simp only [h, if_false]
      cases hrec : splitOnChar sep rest with
      | nil => exact absurd hrec ih
      | cons l ls => simp

theorem splitOnChar_append_sep (sep : Char) (xs ys : List Char) :
    splitOnChar sep (xs ++ sep :: ys) = splitOnChar sep xs ++ splitOnChar sep ys := by
  induction xs with
  | nil => simp [splitOnChar]
  | cons c rest ih =>
    simp only [List.cons_append, splitOnChar]
    by_cases h : c = sep
    · simp [h, ih]
    · simp only [h, if_false]
      cases hrec : splitOnChar sep rest with
      | nil => exact absurd hrec (splitOnChar_ne_nil sep rest)
      | cons l ls => simp only [List.append_eq]; rw [ih, hrec]; simp

theorem splitOnChar_no_sep (sep : Char) (l : List Char) (h : sep ∉ l) :
    splitOnChar sep l = [l] := by
  induction l with
  | nil => rfl
  | cons c rest ih =>
    simp only [List.mem_cons, not_or] at h
    simp only [splitOnChar, Ne.symm h.1, if_false]
    rw [ih h.2]

theorem fileLines_append_one (s a : String) (h : '\n' ∉ a.data) :
    fileLines (s ++ "\n" ++ a) = fileLines s ++ [a] := by
  unfold fileLines
  have hdata : (s ++ "\n" ++ a).data = s.data ++ '\n' :: a.data := by
    simp [String.data_append]
  rw [hdata, splitOnChar_append_sep, splitOnChar_no_sep '\n' a.data h]
  simp

theorem fileLines_appendLines (deps : List String) (s : String)
    (h : ∀ a ∈ deps, '\n' ∉ a.data) :
    fileLines (appendLines s deps) = fileLines s ++ deps := by
  induction deps generalizing s with
  | nil => simp [appendLines]
  | cons a rest ih =>
    have ha : '\n' ∉ a.data := h a (List.mem_cons_self a rest)
    have hrest : ∀ b ∈ rest, '\n' ∉ b.data := fun b hb => h b (List.mem_cons_of_mem a hb)
    show fileLines (appendLines (s ++ "\n" ++ a) rest) = fileLines s ++ a :: rest
    rw [ih (s ++ "\n" ++ a) hrest, fileLines_append_one s a ha]
    simp

/-! ## Further helper lemmas -/

theorem exceptBind_ok {α β : Type} (a : α) (f : α → Except Err β) :
    (Except.ok a >>= f) = f a := rfl

theorem exceptBind_error {α β : Type} (e : Err) (f : α → Except Err β) :
    ((Except.error e : Except Err α) >>= f) = Except.error e := rfl

theorem readFile_writeFile (fs : FS) (p : String) (d : FileData) :
    (fs.writeFile p d).readFile p = some d := by
  simp [FS.readFile, FS.writeFile]

theorem removeTree_not_contains (fs : FS) (d : String) :
    ((fs.removeTree d).dirs.contains d) = false := by
  have hnm : d ∉ (fs.removeTree d).dirs := by
    simp only [FS.removeTree]
    intro hmem
    have := (List.mem_filter.mp hmem).2
    simp at this
  simp [List.contains, List.elem_eq_mem, hnm]

/-- Correctness of the prompt loop: when it succeeds it issues one prompt per
non-empty group (in order), and the accumulated selection is the in-order
concatenation of the user's per-prompt selections. -/
theorem hubLoop_spec (doc : PyProjectDoc) (responses : Nat → List String) :
    ∀ (gs : List String) (k : Nat) (effs : List Effect) (deps : List String),
      hubLoop doc responses gs k = .ok (effs, deps) →
      countPrompts effs =
        gs.countP (fun g => !((lookupGroup doc g).getD []).isEmpty) ∧
      deps = ((List.range' k (countPrompts effs)).map responses).flatten := by
  intro gs
  induction gs with
  | nil =>
    intro k effs deps h
    simp only [hubLoop, Except.ok.injEq, Prod.mk.injEq] at h
    obtain ⟨h1, h2⟩ := h
    subst h1; subst h2
    simp [countPrompts]
  | cons g gs ih =>
    intro k effs deps h
    simp only [hubLoop] at h
    split at h
    · exact absurd h (by simp)
    case _ lst hl =>
      split at h
      case isTrue he =>
        obtain ⟨hc, hd⟩ := ih k effs deps h
        refine ⟨?_, hd⟩
        rw [hc]
        simp [List.countP_cons, hl, he]
      case isFalse he =>
        split at h
        · exact absurd h (by simp)
        case _ effs' deps' hrec =>
          simp only [Except.ok.injEq, Prod.mk.injEq] at h
          obtain ⟨h1, h2⟩ := h
          subst h1; subst h2
          obtain ⟨hc, hd⟩ := ih (k + 1) effs' deps' hrec
          have hcount : countPrompts (Effect.prompt (pyReplace g "all-" "") :: effs') =
              countPrompts effs' + 1 := by
            simp [countPrompts, List.countP_cons, isPromptEff]
          constructor
          · rw [hcount, hc]
            simp [List.countP_cons, hl, Bool.not_eq_true] at he ⊢
            simp [he]
          · rw [hcount, List.range'_succ]
            simp only [List.map_cons, List.flatten_cons]
            rw [← hd]

/-! ## Claim C5: the firebase-tools probe -/

/-- C5 (counterexample): the claim that no outcome other than `True`/`False`
escapes the probe for any state of the host system is false: when the
`firebase` executable cannot be launched at all, the probe propagates an
uncaught error instead of returning `False`. -/
theorem firebase_probe_launch_failure_escapes :
    check_if_firebase_tools_installed .launchFailure = .error .launchError := rfl

/-- C5 (amended): the probe returns `True` exactly when the version-probe
command runs and exits zero and `False` when it exits non-zero; but when the
command cannot be launched (the executable is absent) the error propagates
uncaught. -/
theorem firebase_probe_exit_code_behaviour :
    (∀ n : Nat, check_if_firebase_tools_installed (.exited n) = .ok (n == 0)) ∧
    check_if_firebase_tools_installed .launchFailure = .error .launchError := by
  refine ⟨fun n => ?_, rfl⟩
  cases n <;> rfl

/-- C5 witness for the amended claim, at exit code 7 and at launch failure. -/
theorem firebase_probe_exit_code_behaviour_witness :
    check_if_firebase_tools_installed (.exited 7) = .ok false ∧
    check_if_firebase_tools_installed .launchFailure = .error .launchError :=
  ⟨firebase_probe_exit_code_behaviour.1 7, firebase_probe_exit_code_behaviour.2⟩

/-! ## Claim C9: answering "no" at the front-end prompt is a no-op -/

/-- C9: whatever the project type, the requirements-file path, the
`npm_package_file` argument and the filesystem, answering "no" to the
firebase question returns immediately with the filesystem unchanged and an
effect trace holding only that prompt: no subprocess, no move, no write. -/
theorem firebase_no_is_noop (projectType requirements_file : String)
    (npm_package_file : Option String) (fs : FS) :
    create_autora_example_project ⟨"no", projectType⟩ requirements_file
      npm_package_file fs = .ok (fs, [Effect.prompt "firebase"]) := rfl

/-- C9 witness: instantiated on the template filesystem. -/
theorem firebase_no_is_noop_witness :
    create_autora_example_project ⟨"no", "Blank"⟩ requirementsFilePath
      (some npmPackageFilePath) templateFS =
      .ok (templateFS, [Effect.prompt "firebase"]) :=
  firebase_no_is_noop "Blank" requirementsFilePath (some npmPackageFilePath) templateFS

/-! ## Claim C8: `clean_up` is idempotent -/

/-- C8: running `clean_up` twice leaves the filesystem unchanged on the second
call (which performs no effect), and running it when `temp` does not exist is
an error-free no-op. -/
theorem clean_up_idempotent (fs : FS) :
    clean_up (clean_up fs).1 = ((clean_up fs).1, []) ∧
    (fs.dirs.contains "temp" = false → clean_up fs = (fs, [])) := by
  have key : ∀ g : FS, g.dirs.contains "temp" = false → clean_up g = (g, []) := by
    intro g hg
    have hnm : "temp" ∉ g.dirs := by
      simpa [List.contains, List.elem_eq_mem] using hg
    simp [clean_up, hnm]
  constructor
  · cases h : fs.dirs.contains "temp" with
    | false =>
      rw [key fs h]
      simpa using key fs h
    | true =>
      have hm : "temp" ∈ fs.dirs := by
        simpa [List.contains, List.elem_eq_mem] using h
      have h1 : (clean_up fs).1 = fs.removeTree "temp" := by simp [clean_up, hm]
      rw [h1]
      exact key _ (removeTree_not_contains fs "temp")
  · intro h
    exact key fs h

/-- C8 witness: instantiated on the template filesystem (where `temp` exists)
and on an empty filesystem (where it never existed). -/
theorem clean_up_idempotent_witness :
    clean_up (clean_up templateFS).1 = ((clean_up templateFS).1, []) ∧
    clean_up ⟨[], []⟩ = ((⟨[], []⟩ : FS), []) :=
  ⟨(clean_up_idempotent templateFS).1, (clean_up_idempotent ⟨[], []⟩).2 (by decide)⟩

/-! ## Claim C2: the Double Sweet branch as invoked from `main` -/

/-- C2 (code bug): as invoked from the top-level flow, choosing `Double Sweet`
does not rewrite the package manifest: `main` computes the `package.json`
path but does not pass it, so `create_autora_example_project` receives its
default `None` and the branch fails on `open(None)` with a `TypeError`. -/
theorem double_sweet_from_main_raises_type_error :
    main doubleSweetInput templateFS = .error Err.typeError := rfl

/-! ## Claim C1: the advanced branch and the example project selector -/

/-- C1 (counterexample): an advanced run in which the dependency menu builder
completes successfully but the user selects no packages proceeds straight to
cleanup: the example project selector stage is skipped, so the linear state
machine of the spec does admit such a run. -/
theorem advanced_run_can_skip_selector :
    runOk (main noProlificInput templateFS) = true ∧
    runStages (main noProlificInput templateFS) =
      [Stage.modeSelector, Stage.dependencyMenuBuilder, Stage.cleanup] ∧
    Stage.exampleProjectSelector ∉ runStages (main noProlificInput templateFS) := by
  refine ⟨rfl, rfl, ?_⟩
  decide

/-- C1 (amended): in an advanced run that completes, the flow transitions
from the dependency menu builder to the example project selector exactly when
the firebase-prolific runner package is among the accumulated selections;
otherwise the selector stage is skipped and the flow goes directly to
cleanup. -/
theorem advanced_selector_iff_prolific (inp : RunInput) (fs : FS)
    (hadv : inp.advanced = true) (hok : runOk (main inp fs) = true) :
    (Stage.exampleProjectSelector ∈ runStages (main inp fs) ↔
      ∃ effs deps, runHubLoop inp.doc inp.responses = .ok (effs, deps) ∧
        prolificPkg ∈ deps) := by
  cases hrl : runHubLoop inp.doc inp.responses with
  | error e =>
    have hmain : main inp fs = .error e := by
      simp [main, create_autora_hub_requirements, hadv, hrl, exceptBind_error]
    rw [hmain] at hok
    exact absurd hok (by simp [runOk])
  | ok pr =>
    obtain ⟨effs1, deps⟩ := pr
    by_cases hb : prolificPkg ∈ deps
    · cases hsel : create_autora_example_project inp.exAnswers requirementsFilePath
          none (fs.appendDeps requirementsFilePath deps) with
      | error e =>
        have hmain : main inp fs = .error e := by
          simp [main, create_autora_hub_requirements, hadv, hrl, hb, hsel,
                exceptBind_ok, exceptBind_error]
        rw [hmain] at hok
        exact absurd hok (by simp [runOk])
      | ok pr2 =>
        have hmain : runStages (main inp fs) =
            [Stage.modeSelector, Stage.dependencyMenuBuilder,
             Stage.exampleProjectSelector, Stage.cleanup] := by
          simp [main, create_autora_hub_requirements, hadv, hrl, hb, hsel,
                exceptBind_ok, runStages]
        rw [hmain]
        constructor
        · intro _
          exact ⟨effs1, deps, rfl, hb⟩
        · intro _
          decide
    · have hmain : runStages (main inp fs) =
          [Stage.modeSelector, Stage.dependencyMenuBuilder, Stage.cleanup] := by
        simp [main, create_autora_hub_requirements, hadv, hrl, hb,
              exceptBind_ok, runStages]
      rw [hmain]
      constructor
      · intro hmem
        exact absurd hmem (by decide)
      · rintro ⟨effs', deps', hrl', hc'⟩
        simp only [Except.ok.injEq, Prod.mk.injEq] at hrl'
        rw [← hrl'.2] at hc'
        exact absurd hc' hb

/-- C1 witness for the amended claim: in a concrete advanced run whose
selections include the prolific runner package, the selector stage is
reached. -/
theorem advanced_selector_iff_prolific_witness :
    Stage.exampleProjectSelector ∈ runStages (main prolificInput templateFS) :=
  (advanced_selector_iff_prolific prolificInput templateFS rfl rfl).mpr
    ⟨[Effect.prompt "theorists", Effect.prompt "experimentalists"],
     [prolificPkg], rfl, by decide⟩

/-! ## Claim C4: directories removed by the example project selector -/

/-- C4 (counterexample): a successful selector run (project type `Blank`, on
the full template filesystem) removes four staging directories, not three:
`example_workflows`, `example_mains`, `example_css` and `readmes`. -/
theorem selector_removes_four_dirs_not_three :
    selOk blankSelRun = true ∧
    removedDirs (selEffects blankSelRun) =
      ["example_workflows", "example_mains", "example_css", "readmes"] ∧
    (removedDirs (selEffects blankSelRun)).length ≠ 3 := by
  refine ⟨rfl, rfl, ?_⟩
  decide

/-- C4 (amended): for every example-template choice, after the
main/workflow/README moves complete the selector deletes exactly the four
staging directories `example_workflows`, `example_mains`, `example_css` and
`readmes`, in that order, and no others. -/
theorem selector_removes_exactly_four_dirs (pt : String)
    (hpt : pt ∈ projectTypeChoices) :
    selOk (create_autora_example_project ⟨"yes", pt⟩ requirementsFilePath
      (some npmPackageFilePath) templateFS) = true ∧
    removedDirs (selEffects (create_autora_example_project ⟨"yes", pt⟩
      requirementsFilePath (some npmPackageFilePath) templateFS)) =
      ["example_workflows", "example_mains", "example_css", "readmes"] := by
  fin_cases hpt <;> exact ⟨rfl, rfl⟩

/-- C4 witness for the amended claim, at the `JsPsych - Stroop` choice. -/
theorem selector_removes_exactly_four_dirs_witness :
    selOk (create_autora_example_project ⟨"yes", "JsPsych - Stroop"⟩
      requirementsFilePath (some npmPackageFilePath) templateFS) = true ∧
    removedDirs (selEffects (create_autora_example_project ⟨"yes", "JsPsych - Stroop"⟩
      requirementsFilePath (some npmPackageFilePath) templateFS)) =
      ["example_workflows", "example_mains", "example_css", "readmes"] :=
  selector_removes_exactly_four_dirs "JsPsych - Stroop" (by decide)

/-! ## Claim C10: missing assets make the relocation fail -/

/-- C10: for every example-template choice, on a template filesystem missing
the workflow file for the mapped token the selector fails with the
file-not-found error for that workflow file, and likewise for a missing
firebase README — it never silently skips the move. -/
theorem missing_asset_fails_not_skips (pt : String)
    (hpt : pt ∈ projectTypeChoices) :
    create_autora_example_project ⟨"yes", pt⟩ requirementsFilePath
      (some npmPackageFilePath)
      (templateFS.removeFile ("example_workflows/" ++ exampleFileFor pt ++ ".py")) =
      .error (.fileNotFound ("example_workflows/" ++ exampleFileFor pt ++ ".py")) ∧
    create_autora_example_project ⟨"yes", pt⟩ requirementsFilePath
      (some npmPackageFilePath)
      (templateFS.removeFile ("readmes/README_FIREBASE_" ++ exampleFileFor pt ++ ".md")) =
      .error (.fileNotFound ("readmes/README_FIREBASE_" ++ exampleFileFor pt ++ ".md")) := by
  fin_cases hpt <;> exact ⟨rfl, rfl⟩

/-! ## Claim C3: appending to the requirements file -/

/-- C3: appending the K selected package identifiers to an existing
requirements file puts each identifier on its own line, increases the line
count by exactly K and preserves all prior content unchanged (the prior
line list is a prefix of the new one). -/
theorem append_requirements_line_structure (fs : FS) (p s : String)
    (deps : List String) (hread : fs.readFile p = some (.text s))
    (hnl : ∀ a ∈ deps, '\n' ∉ a.data) :
    (fs.appendDeps p deps).readFile p = some (.text (appendLines s deps)) ∧
    fileLines (appendLines s deps) = fileLines s ++ deps ∧
    (fileLines (appendLines s deps)).length = (fileLines s).length + deps.length := by
  have hlines := fileLines_appendLines deps s hnl
  refine ⟨?_, hlines, by rw [hlines]; simp⟩
  simp only [FS.appendDeps, hread]
  exact readFile_writeFile fs p _

/-- C3 witness: two packages appended to the template requirements file. -/
theorem append_requirements_line_structure_witness :
    (templateFS.appendDeps requirementsFilePath
        ["autora[theorist-bms]", "sweetbean"]).readFile requirementsFilePath =
      some (.text (appendLines "autora-core" ["autora[theorist-bms]", "sweetbean"])) ∧
    fileLines (appendLines "autora-core" ["autora[theorist-bms]", "sweetbean"]) =
      fileLines "autora-core" ++ ["autora[theorist-bms]", "sweetbean"] ∧
    (fileLines (appendLines "autora-core" ["autora[theorist-bms]", "sweetbean"])).length =
      (fileLines "autora-core").length + 2 :=
  append_requirements_line_structure templateFS requirementsFilePath "autora-core"
    ["autora[theorist-bms]", "sweetbean"] rfl (by decide)

/-! ## Claim C6: the dependency menu builder's prompts and selections -/

/-- C6: when the menu builder's loop completes on a manifest whose `all`
section resolves to `names`, it issues exactly one prompt per non-empty
optional-dependency group, and the accumulated selection is the
order-preserving concatenation (duplicates permitted) of the user's
per-prompt selections. -/
theorem menu_builder_prompt_count (doc : PyProjectDoc) (responses : Nat → List String)
    (names : List String) (effs : List Effect) (deps : List String)
    (hnames : allDepsClean doc = .ok names)
    (hrun : runHubLoop doc responses = .ok (effs, deps)) :
    countPrompts effs =
      names.countP (fun g => !((lookupGroup doc g).getD []).isEmpty) ∧
    deps = ((List.range (countPrompts effs)).map responses).flatten := by
  have h0 : hubLoop doc responses names 0 = .ok (effs, deps) := by
    simp only [runHubLoop] at hrun
    rw [hnames, exceptBind_ok] at hrun
    exact hrun
  obtain ⟨hc, hd⟩ := hubLoop_spec doc responses names 0 effs deps h0
  refine ⟨hc, ?_⟩
  rw [List.range_eq_range']
  exact hd

/-- C6 witness: the sample manifest has two non-empty groups and one empty
one; the two prompts' selections (with a duplicate) concatenate in order. -/
theorem menu_builder_prompt_count_witness :
    countPrompts [Effect.prompt "theorists", Effect.prompt "experimentalists"] =
      (["all-theorists", "all-experimentalists", "all-docs"].countP
        (fun g => !((lookupGroup sampleDoc g).getD []).isEmpty)) ∧
    ["autora[theorist-bms]", "dup", "dup"] =
      ((List.range (countPrompts [Effect.prompt "theorists",
        Effect.prompt "experimentalists"])).map dupResponses).flatten :=
  menu_builder_prompt_count sampleDoc dupResponses
    ["all-theorists", "all-experimentalists", "all-docs"]
    [Effect.prompt "theorists", Effect.prompt "experimentalists"]
    ["autora[theorist-bms]", "dup", "dup"] rfl rfl

/-! ## Claim C7: the basic path end-to-end -/

/-- C7: a run answering "no" to the basic-or-advanced question (for any exit
code of the firebase-tools probe) succeeds and ends with the requirements
file extended by exactly one new line `autora`, the fixed basic main,
workflow and the two READMEs moved into the front-end and analysis
directories, the three staging directories removed, and the stage trace
`ModeSelector → BasicSetup → Cleanup`. -/
theorem basic_path_end_state (c : Nat) :
    runOk (main (basicInput c) templateFS) = true ∧
    (runFS (main (basicInput c) templateFS)).readFile requirementsFilePath =
      some (.text "autora-core\nautora") ∧
    fileLines "autora-core\nautora" = fileLines "autora-core" ++ ["autora"] ∧
    (runFS (main (basicInput c) templateFS)).readFile "researcher_hub/autora_workflow.py" =
      some (.text "workflow basic") ∧
    (runFS (main (basicInput c) templateFS)).readFile "testing_zone/src/design/main.js" =
      some (.text "main basic") ∧
    (runFS (main (basicInput c) templateFS)).readFile "researcher_hub/README.md" =
      some (.text "readme autora") ∧
    (runFS (main (basicInput c) templateFS)).readFile "testing_zone/README.md" =
      some (.text "readme fb basic") ∧
    (runFS (main (basicInput c) templateFS)).dirs.contains "example_workflows" = false ∧
    (runFS (main (basicInput c) templateFS)).dirs.contains "example_mains" = false ∧
    (runFS (main (basicInput c) templateFS)).dirs.contains "readmes" = false ∧
    runStages (main (basicInput c) templateFS) =
      [Stage.modeSelector, Stage.basicSetup, Stage.cleanup] := by
  cases c <;>
    exact ⟨rfl, rfl, rfl, rfl, rfl, rfl, rfl, rfl, rfl, rfl, rfl⟩

/-- C7 witness: instantiated at probe exit code 3 (firebase-tools absent). -/
theorem basic_path_end_state_witness :
    runOk (main (basicInput 3) templateFS) = true ∧
    (runFS (main (basicInput 3) templateFS)).readFile requirementsFilePath =
      some (.text "autora-core\nautora") ∧
    runStages (main (basicInput 3) templateFS) =
      [Stage.modeSelector, Stage.basicSetup, Stage.cleanup] :=
  ⟨(basic_path_end_state 3).1, (basic_path_end_state 3).2.1,
   (basic_path_end_state 3).2.2.2.2.2.2.2.2.2.2⟩

/-- C10 witness, at the `Blank` choice (mapped token `basic`). -/
theorem missing_asset_fails_not_skips_witness :
    create_autora_example_project ⟨"yes", "Blank"⟩ requirementsFilePath
      (some npmPackageFilePath)
      (templateFS.removeFile ("example_workflows/" ++ exampleFileFor "Blank" ++ ".py")) =
      .error (.fileNotFound ("example_workflows/" ++ exampleFileFor "Blank" ++ ".py")) ∧
    create_autora_example_project ⟨"yes", "Blank"⟩ requirementsFilePath
      (some npmPackageFilePath)
      (templateFS.removeFile ("readmes/README_FIREBASE_" ++ exampleFileFor "Blank" ++ ".md")) =
      .error (.fileNotFound ("readmes/README_FIREBASE_" ++ exampleFileFor "Blank" ++ ".md")) :=
  missing_asset_fails_not_skips "Blank" (by decide)

end Autora
